import Mathlib

/-!
Shallow embedding of the `django_cohort_analysis` repository
(`django_cohort_analysis/cohorts.py` and `django_cohort_analysis/metrics.py`)
together with proofs about the claims of its specification.

Timestamps (`datetime.datetime` values) are modelled as integers counting
microseconds from an epoch placed at 0001-01-01 00:00:00 of the proleptic
Gregorian calendar (Python's `date.toordinal() == 1`), which was a Monday, so
`weekday` is a floor-division-and-remainder computation.  `timedelta(days=n)`
and `timedelta(weeks=n)` become multiples of `usPerDay`.  Django querysets
become lists of records carrying their `date_created` timestamp, and the
`date_created__range=(a, b)` filter keeps the records with `a ≤ t ≤ b`
(Django's `__range` lookup compiles to SQL `BETWEEN`, inclusive of both
endpoints).  Python modules become finite association lists of named members,
and `import_module` becomes a partial map from module names to such member
lists; exceptions become `Except` results.
-/

namespace DjangoCohortAnalysis

/-- Number of microseconds in one day (the resolution of Python datetimes). -/
def usPerDay : Int := 86400000000

/-- Embeds `timedelta(days=n)`. -/
def timedeltaDays (n : Int) : Int := n * usPerDay

/-- Embeds `timedelta(weeks=n)` (one week is exactly seven days). -/
def timedeltaWeeks (n : Int) : Int := n * (7 * usPerDay)

/-- Embeds `datetime.weekday()`: 0 is Monday, ..., 6 is Sunday.  The epoch
day is a Monday, so the weekday is the day index modulo 7 (Python's floor
division and nonnegative remainder). -/
def weekday (t : Int) : Int := Int.fdiv t usPerDay % 7

/-- A model instance: only its `date_created` field is read by the library. -/
structure Record where
  date_created : Int
deriving DecidableEq, Repr

/-- Embeds the `Cohort` wrapper class of cohorts.py; the constructor argument
order (queryset, start_date, end_date) matches `Cohort.__init__`. -/
structure Cohort where
  queryset : List Record
  start_date : Int
  end_date : Int
deriving DecidableEq, Repr

/-- Helper for `snake_case_to_title`: the character substitution performed by
`string.replace('_', ' ')`. -/
def underscoreToSpace (c : Char) : Char := if c = '_' then ' ' else c

/-- Helper embedding Python's `str.title()` over a character list: the Boolean
argument records whether the previous character was a letter; a letter that
follows a non-letter starts a word and is uppercased, any other letter is
lowercased, non-letters pass through.  (ASCII view, enough for Python
identifiers.) -/
def titleCaseAux : Bool → List Char → List Char
  | _, [] => []
  | prevLetter, c :: cs =>
    if c.isAlpha then
      (if prevLetter then c.toLower else c.toUpper) :: titleCaseAux true cs
    else
      c :: titleCaseAux false cs

/-- Embeds Python's `str.title()`. -/
def titleCase (s : List Char) : List Char := titleCaseAux false s

/-- Embeds `snake_case_to_title`: `string.replace('_', ' ').title()`. -/
def snake_case_to_title (s : String) : String :=
  String.mk (titleCase (s.data.map underscoreToSpace))

/-- Embeds `get_file_or_default`: `metric_file if metric_file is not None
else 'cohorts.metrics'`. -/
def get_file_or_default (metric_file : Option String) : String :=
  match metric_file with
  | some f => f
  | none => "cohorts.metrics"

/-- Embeds `round_date_down`:
`date_to_round - timedelta(days=date_to_round.weekday())`. -/
def round_date_down (date_to_round : Int) : Int :=
  date_to_round - timedeltaDays (weekday date_to_round)

/-- Embeds `round_date_up`:
`date_to_round - timedelta(days=(7 - date_to_round.weekday()))`.  Note the
subtraction: the source moves the date backward by `7 - weekday` days. -/
def round_date_up (date_to_round : Int) : Int :=
  date_to_round - timedeltaDays (7 - weekday date_to_round)

/-- Embeds `stretch_to_rounded_date_range`. -/
def stretch_to_rounded_date_range (start_date end_date : Int) :
    Int × Int :=
  (round_date_down start_date, round_date_up end_date)

/-- Type of a metric function: `function_name(cohort, start_date, end_date)`,
returning an analysis result of type `α`. -/
abbrev MetricFn (α : Type) := Cohort → Int → Int → α

/-- A member of a Python module as seen by `inspect.getmembers`: either a
function (satisfying `inspect.isfunction`) or any other kind of member. -/
inductive Member (α : Type) where
  | function : MetricFn α → Member α
  | other : Member α

/-- An import environment: what `importlib.import_module` resolves a module
name to — `none` when the import raises `ImportError`, otherwise the module's
named members. -/
abbrev ImportEnv (α : Type) := String → Option (List (String × Member α))

/-- Embeds `inspect.getmembers(metrics_module, isfunction)`: the named
function members of a module, in member order. -/
def functionMembers {α : Type} (metrics_module : List (String × Member α)) :
    List (String × MetricFn α) :=
  metrics_module.filterMap fun m =>
    match m.2 with
    | .function f => some (m.1, f)
    | .other => none

/-- Embeds `get_sorted_metric_function_tuples`:
`sorted(getmembers(metrics_module, isfunction))` — the (name, function) pairs
sorted by name (Python compares the tuples, whose first components, the
member names, are distinct within a module). -/
def get_sorted_metric_function_tuples {α : Type}
    (metrics_module : List (String × Member α)) : List (String × MetricFn α) :=
  (functionMembers metrics_module).mergeSort fun a b => decide (a.1 ≤ b.1)

/-- Embeds `extract_instances_in_date_range`:
`model_instances.filter(date_created__range=(start, end))`.  Django's
`__range` lookup is inclusive of both endpoints (SQL `BETWEEN`). -/
def extract_instances_in_date_range (model_instances : List Record)
    (time_window_start time_window_end : Int) : List Record :=
  model_instances.filter fun r =>
    decide (time_window_start ≤ r.date_created) &&
      decide (r.date_created ≤ time_window_end)

/-- Embeds `get_time_window_from_date(date, window_length=6)`; the caller in
`get_cohorts_from_model` uses the default `window_length = 6`. -/
def get_time_window_from_date (date : Int) (window_length : Int) :
    Int × Int :=
  (date, date + timedeltaDays window_length)

/-- Modelled from the spec: the module `exceptions` imported by cohorts.py is
not among the provided sources; following §7 of the specification it declares
the three failure kinds `InvalidUserModel`, `NoMetricFileFound` and
`NoMetricFunctionsFound`, raised by the pipeline. -/
inductive PyError where
  | invalidUserModel
  | noMetricFileFound
  | noMetricFunctionsFound
deriving DecidableEq, Repr

/-- A record source (`model.objects.all()` together with the
`model.DoesNotExist` signal): `none` when the ORM reports that the underlying
collection does not exist, otherwise the list of all model instances. -/
abbrev Model := Option (List Record)

/-- Embeds the `while time_window_end < end_date` loop of
`get_cohorts_from_model`: each iteration appends the cohort of the current
window and advances both window bounds by `timedelta(weeks=1)`. -/
def cohortWindows (all_model_instances : List Record)
    (time_window_start time_window_end end_date : Int) : List Cohort :=
  if h : time_window_end < end_date then
    Cohort.mk
        (extract_instances_in_date_range all_model_instances
          time_window_start time_window_end)
        time_window_start time_window_end ::
      cohortWindows all_model_instances (time_window_start + timedeltaWeeks 1)
        (time_window_end + timedeltaWeeks 1) end_date
  else
    []
termination_by (end_date - time_window_end).toNat
decreasing_by
  simp only [timedeltaWeeks, usPerDay] at *
  omega

/-- Embeds `get_cohorts_from_model`: the initial window comes from
`get_time_window_from_date(start_date)` (default window length 6 days); a
`model.DoesNotExist` signal from the record source is turned into
`InvalidUserModel`. -/
def get_cohorts_from_model (model : Model) (start_date end_date : Int) :
    Except PyError (List Cohort) :=
  let w := get_time_window_from_date start_date 6
  match model with
  | none => .error .invalidUserModel
  | some all_model_instances =>
      .ok (cohortWindows all_model_instances w.1 w.2 end_date)

/-- Embeds `get_metrics_from_file`: `import_module` failure (the environment
resolves the name to `none`) raises `NoMetricFileFound`; an empty sorted
member list raises `NoMetricFunctionsFound`. -/
def get_metrics_from_file {α : Type} (env : ImportEnv α) (metric_file : String) :
    Except PyError (List (String × MetricFn α)) :=
  match env metric_file with
  | none => .error .noMetricFileFound
  | some metrics_module =>
      let metrics := get_sorted_metric_function_tuples metrics_module
      if metrics.isEmpty then .error .noMetricFunctionsFound else .ok metrics

/-- Number of days before January 1st of the given year in the proleptic
Gregorian calendar (CPython's `datetime._days_before_year`). -/
def daysBeforeYear (year : Int) : Int :=
  (year - 1) * 365 + Int.fdiv (year - 1) 4 - Int.fdiv (year - 1) 100 +
    Int.fdiv (year - 1) 400

/-- Gregorian year containing the day with the given ordinal (day 1 is
0001-01-01), following the 400/100/4/1-year decomposition of CPython's
`datetime._ord2ymd`. -/
def yearOfOrdinal (ordinal : Int) : Int :=
  let n0 := ordinal - 1
  let n400 := Int.fdiv n0 146097
  let r400 := n0 - n400 * 146097
  let n100 := Int.fdiv r400 36524
  let r100 := r400 - n100 * 36524
  let n4 := Int.fdiv r100 1461
  let r4 := r100 - n4 * 1461
  let n1 := Int.fdiv r4 365
  let year := n400 * 400 + n100 * 100 + n4 * 4 + n1 + 1
  if n1 = 4 ∨ n100 = 4 then year - 1 else year

/-- Ordinal of the Monday starting ISO week 1 of the given year (CPython's
`datetime._isoweek1monday`). -/
def isoweek1monday (year : Int) : Int :=
  let firstday := daysBeforeYear year + 1
  let firstweekday := (firstday + 6) % 7
  let week1monday := firstday - firstweekday
  if firstweekday > 3 then week1monday + 7 else week1monday

/-- Embeds `get_isoweek_from_date`: `date.isocalendar()[1]`, the ISO-8601 week
number, computed by CPython's `datetime.isocalendar` algorithm from the
ordinal of the timestamp's date. -/
def get_isoweek_from_date (date : Int) : Int :=
  let today := Int.fdiv date usPerDay + 1
  let year := yearOfOrdinal today
  let week := Int.fdiv (today - isoweek1monday year) 7
  if week < 0 then
    Int.fdiv (today - isoweek1monday (year - 1)) 7 + 1
  else if week ≥ 52 ∧ today ≥ isoweek1monday (year + 1) then
    1
  else
    week + 1

/-- Embeds the per-metric `OrderedDict` built by `map_metric_to_cohort`. -/
structure AnalysisEntry (α : Type) where
  function_name : String
  analysis_result : α
deriving DecidableEq, Repr

/-- Embeds the per-cohort `OrderedDict` produced by `analyze_cohorts`. -/
structure CohortReport (α : Type) where
  born_week : Int
  analysis : List (AnalysisEntry α)
deriving DecidableEq, Repr

/-- Embeds `create_default_dict_for_cohort`: `born_week` is the ISO week of
the cohort's start date, and the `analysis` list starts empty. -/
def create_default_dict_for_cohort {α : Type} (cohort : Cohort) :
    CohortReport α :=
  { born_week := get_isoweek_from_date cohort.start_date, analysis := [] }

/-- Embeds `map_metric_to_cohort`: the entry's name is the title-cased metric
name and its result is `metric[1](cohort, cohort.start_date, end_date)`; the
`start_date` argument is received but never read, as in the source. -/
def map_metric_to_cohort {α : Type} (metric : String × MetricFn α)
    (cohort : Cohort) (start_date end_date : Int) : AnalysisEntry α :=
  { function_name := snake_case_to_title metric.1
    analysis_result := metric.2 cohort cohort.start_date end_date }

/-- Embeds `analyze_cohorts`: metrics are loaded once; the two nested `for`
loops appending to Python lists become two nested left folds over the cohort
and metric lists. -/
def analyze_cohorts {α : Type} (env : ImportEnv α) (cohorts : List Cohort)
    (metric_file : String) (start_date end_date : Int) :
    Except PyError (List (CohortReport α)) :=
  match get_metrics_from_file env metric_file with
  | .error e => .error e
  | .ok metrics =>
      .ok (cohorts.foldl
        (fun analysis cohort =>
          let d := create_default_dict_for_cohort cohort
          let d := { d with
            analysis := metrics.foldl
              (fun acc metric =>
                acc ++ [map_metric_to_cohort metric cohort start_date end_date])
              d.analysis }
          analysis ++ [d])
        [])

/-- Embeds `analyze_cohorts_for_model`: round the range, resolve the metric
file default, build the cohorts, analyze them. -/
def analyze_cohorts_for_model {α : Type} (env : ImportEnv α) (model : Model)
    (start_date end_date : Int) (metric_file : Option String) :
    Except PyError (List (CohortReport α)) :=
  let r := stretch_to_rounded_date_range start_date end_date
  let mf := get_file_or_default metric_file
  match get_cohorts_from_model model r.1 r.2 with
  | .error e => .error e
  | .ok cohorts => analyze_cohorts env cohorts mf r.1 r.2

/-- Python `TypeError`, raised by `metrics.example_metric` when it adds two
datetimes. -/
inductive PyTypeError where
  | typeError
deriving DecidableEq, Repr

/-- Embeds `metrics.example_metric`.  Its `while window_end_date < end_date`
loop body executes `window_start_date += window_end_date + timedelta(days=1)`,
which adds two datetimes — a `TypeError` in Python — so the first iteration
raises; when the guard fails immediately the function returns its empty
result list (the `result.append(...)` preceding the raise is lost with the
exception). -/
def example_metric (cohort : Cohort) (start_date end_date : Int) :
    Except PyTypeError (List Nat) :=
  let window_start_date := start_date
  let window_end_date := window_start_date + timedeltaWeeks 1
  if window_end_date < end_date then
    .error .typeError
  else
    .ok []

/-- Modelled from the source layout and setup.py: the repository packages the
single package `django_cohort_analysis` (setup.py, `packages=
['django_cohort_analysis']`), whose metrics module
`django_cohort_analysis.metrics` has exactly one function member,
`example_metric`.  No top-level package named `cohorts` exists, so importing
`'cohorts.metrics'` — the default produced by `get_file_or_default` — raises
`ImportError`; only the metrics module is modelled as resolvable here. -/
def repoImportEnv : ImportEnv (Except PyTypeError (List Nat)) := fun name =>
  if name = "django_cohort_analysis.metrics" then
    some [("example_metric", Member.function fun c s e => example_metric c s e)]
  else
    none

/-- A sample metric function used to instantiate the analyzer at concrete
inputs: it returns the number of records in the cohort. -/
def cMetric : MetricFn Nat := fun cohort _ _ => cohort.queryset.length

/-- A sample metrics module with a single function member. -/
def sampleMetricModule : List (String × Member Nat) :=
  [("example_metric", Member.function cMetric)]

/-- A sample import environment resolving one module name. -/
def sampleImportEnv : ImportEnv Nat := fun name =>
  if name = "sample.metrics" then some sampleMetricModule else none

/-! ## Helper lemmas -/

theorem cohortWindows_of_lt (inst : List Record) (ws we e : Int) (h : we < e) :
    cohortWindows inst ws we e =
      Cohort.mk (extract_instances_in_date_range inst ws we) ws we ::
        cohortWindows inst (ws + timedeltaWeeks 1) (we + timedeltaWeeks 1) e := by
  rw [cohortWindows]
  simp [h]

theorem cohortWindows_of_not_lt (inst : List Record) (ws we e : Int)
    (h : ¬ we < e) : cohortWindows inst ws we e = [] := by
  rw [cohortWindows]
  simp [h]

theorem foldl_append_singleton {α β : Type} (f : α → β) (l : List α)
    (init : List β) :
    l.foldl (fun acc x => acc ++ [f x]) init = init ++ l.map f := by
  induction l generalizing init with
  | nil => simp
  | cons x xs ih => simp [ih]

theorem metricLe_trans {α : Type} (a b c : String × MetricFn α) :
    decide (a.1 ≤ b.1) = true → decide (b.1 ≤ c.1) = true →
      decide (a.1 ≤ c.1) = true := by
  simp only [decide_eq_true_eq]
  exact le_trans

theorem metricLe_total {α : Type} (a b : String × MetricFn α) :
    (decide (a.1 ≤ b.1) || decide (b.1 ≤ a.1)) = true := by
  simp only [Bool.or_eq_true, decide_eq_true_eq]
  exact le_total a.1 b.1

theorem get_sorted_metric_function_tuples_sorted {α : Type}
    (m : List (String × Member α)) :
    (get_sorted_metric_function_tuples m).Pairwise fun a b => a.1 ≤ b.1 := by
  have h := List.sorted_mergeSort metricLe_trans metricLe_total
    (functionMembers m)
  exact h.imp fun hab => by simpa using hab

theorem get_sorted_metric_function_tuples_eq_nil_iff {α : Type}
    (m : List (String × Member α)) :
    get_sorted_metric_function_tuples m = [] ↔ functionMembers m = [] := by
  constructor
  · intro h
    have h1 : (List.mergeSort (functionMembers m)
        (fun a b => decide (a.1 ≤ b.1))).length = (functionMembers m).length :=
      List.length_mergeSort _
    rw [get_sorted_metric_function_tuples] at h
    rw [h] at h1
    exact List.length_eq_zero.mp h1.symm
  · intro h
    rw [get_sorted_metric_function_tuples, h, List.mergeSort_nil]

theorem get_metrics_from_file_ok_sorted {α : Type} (env : ImportEnv α)
    (metric_file : String) (metrics : List (String × MetricFn α))
    (hm : get_metrics_from_file env metric_file = .ok metrics) :
    metrics.Pairwise fun a b => a.1 ≤ b.1 := by
  unfold get_metrics_from_file at hm
  cases henv : env metric_file with
  | none =>
      simp only [henv] at hm
      exact absurd hm (by simp)
  | some m =>
      simp only [henv] at hm
      by_cases he : (get_sorted_metric_function_tuples m).isEmpty
      · rw [if_pos he] at hm
        exact absurd hm (by simp)
      · rw [if_neg he] at hm
        obtain rfl : get_sorted_metric_function_tuples m = metrics := by
          simpa using hm
        exact get_sorted_metric_function_tuples_sorted m

/-! ## The claims -/

/-- C1 (code_bug evaluation): on the range from Monday 0001-01-01 to Tuesday
0001-01-09 — a pair of dates more than one week apart — the rounded start is
the unchanged Monday, but `round_date_up` moves the end BACKWARD six days to
a Wednesday (weekday 2) strictly before the original end, instead of forward
to a Monday on or after it: the subtraction in its body contradicts its own
docstring ("Rounds a date up to the nearest Monday"). -/
theorem round_date_up_moves_end_backward :
    timedeltaDays 8 - 0 ≥ timedeltaWeeks 1 ∧
    stretch_to_rounded_date_range 0 (timedeltaDays 8) = (0, timedeltaDays 2) ∧
    weekday (timedeltaDays 2) = 2 ∧
    timedeltaDays 2 < timedeltaDays 8 := by
  refine ⟨by decide, ?_, by decide, by decide⟩
  show (round_date_down 0, round_date_up (timedeltaDays 8)) = _
  have h1 : round_date_down 0 = 0 := by decide
  have h2 : round_date_up (timedeltaDays 8) = timedeltaDays 2 := by decide
  rw [h1, h2]

/-- C6: `get_cohorts_from_model` fails with `InvalidUserModel` exactly when
the record source reports that the underlying collection does not exist
(the `model.DoesNotExist` signal, modelled by the `none` record source). -/
theorem get_cohorts_from_model_invalid_user_model_iff (model : Model)
    (start_date end_date : Int) :
    get_cohorts_from_model model start_date end_date =
      .error .invalidUserModel ↔ model = none := by
  cases model with
  | none => simp [get_cohorts_from_model]
  | some l => simp [get_cohorts_from_model]

/-- C8 (amended): when `end_date - start_date` is at most six days the window
loop of `get_cohorts_from_model` never executes and no cohort is produced.
(The claim's bound "strictly less than one week" is too weak at datetime
granularity: a difference strictly between six and seven days does produce a
cohort, see the counterexample.) -/
theorem get_cohorts_from_model_empty_of_at_most_six_days
    (model_instances : List Record) (start_date end_date : Int)
    (h : end_date - start_date ≤ timedeltaDays 6) :
    get_cohorts_from_model (some model_instances) start_date end_date =
      .ok [] := by
  have hNot : ¬ start_date + timedeltaDays 6 < end_date := by
    simp only [timedeltaDays, usPerDay] at h ⊢
    omega
  show Except.ok (cohortWindows model_instances start_date
    (start_date + timedeltaDays 6) end_date) = _
  rw [cohortWindows_of_not_lt _ _ _ _ hNot]

/-- C8 witness: a six-day range produces no cohorts. -/
theorem get_cohorts_from_model_empty_witness :
    timedeltaDays 6 - 0 ≤ timedeltaDays 6 ∧
    get_cohorts_from_model (some ([] : List Record)) 0 (timedeltaDays 6) =
      .ok [] :=
  ⟨by decide,
    get_cohorts_from_model_empty_of_at_most_six_days [] 0 (timedeltaDays 6)
      (by decide)⟩

/-- C8 counterexample: with `end_date - start_date` equal to six days plus one
microsecond — strictly less than one week — the loop condition
`time_window_end < end_date` does trigger, and one cohort is produced, so the
claim's "zero cohorts whenever the difference is under one week" is false. -/
theorem get_cohorts_from_model_sub_day_gap_produces_cohort :
    timedeltaDays 6 + 1 - 0 < timedeltaWeeks 1 ∧
    get_cohorts_from_model (some ([] : List Record)) 0 (timedeltaDays 6 + 1) =
      .ok [Cohort.mk [] 0 (timedeltaDays 6)] := by
  constructor
  · decide
  · show Except.ok (cohortWindows [] 0 (0 + timedeltaDays 6)
      (timedeltaDays 6 + 1)) = _
    rw [cohortWindows_of_lt _ _ _ _ (by decide),
      cohortWindows_of_not_lt _ _ _ _ (by decide)]
    rfl

/-- C10: the `start_date` argument of `analyze_cohorts` has no effect on its
result: `map_metric_to_cohort` receives it but invokes every metric with the
cohort's own `start_date`, so any two values give identical output. -/
theorem analyze_cohorts_ignores_start_date {α : Type} (env : ImportEnv α)
    (cohorts : List Cohort) (metric_file : String) (s1 s2 end_date : Int) :
    analyze_cohorts env cohorts metric_file s1 end_date =
      analyze_cohorts env cohorts metric_file s2 end_date := rfl

theorem cohortWindows_length_of_weeks (inst : List Record) (ws : Int)
    (N : Nat) :
    (cohortWindows inst ws (ws + timedeltaDays 6)
      (ws + timedeltaWeeks (N : Int))).length = N := by
  induction N generalizing ws with
  | zero =>
      rw [cohortWindows_of_not_lt]
      · rfl
      · simp only [timedeltaDays, timedeltaWeeks, usPerDay]
        push_cast
        omega
  | succ n ih =>
      rw [cohortWindows_of_lt]
      · have h1 : ws + timedeltaDays 6 + timedeltaWeeks 1 =
            ws + timedeltaWeeks 1 + timedeltaDays 6 := by
          simp only [timedeltaDays, timedeltaWeeks, usPerDay]
          ring
        have h2 : ws + timedeltaWeeks ((n + 1 : Nat) : Int) =
            ws + timedeltaWeeks 1 + timedeltaWeeks (n : Int) := by
          simp only [timedeltaDays, timedeltaWeeks, usPerDay]
          push_cast
          ring
        rw [List.length_cons, h1, h2, ih]
      · simp only [timedeltaDays, timedeltaWeeks, usPerDay]
        push_cast
        omega

theorem cohortWindows_queryset (inst : List Record) (ws we e : Int) :
    ∀ c ∈ cohortWindows inst ws we e,
      c.queryset =
        extract_instances_in_date_range inst c.start_date c.end_date := by
  intro c hc
  by_cases h : we < e
  · rw [cohortWindows_of_lt inst ws we e h] at hc
    rcases List.mem_cons.mp hc with rfl | hc'
    · rfl
    · exact cohortWindows_queryset inst (ws + timedeltaWeeks 1)
        (we + timedeltaWeeks 1) e c hc'
  · rw [cohortWindows_of_not_lt inst ws we e h] at hc
    simp at hc
termination_by (e - we).toNat
decreasing_by
  simp only [timedeltaWeeks, usPerDay] at *
  omega

/-- C2 (amended): a record source together with a range of exactly N whole
weeks yields exactly N cohorts — not N − 1: the default window length is 6
days, so the window `[start + 7k, start + 7k + 6 days]` of every
k = 0, ..., N − 1 satisfies the loop condition `window_end < end_date`. -/
theorem get_cohorts_from_model_week_count (model_instances : List Record)
    (start_date : Int) (N : Nat) (hN : 1 ≤ N) :
    ∃ cohorts,
      get_cohorts_from_model (some model_instances) start_date
        (start_date + timedeltaWeeks (N : Int)) = .ok cohorts ∧
      cohorts.length = N := by
  refine ⟨_, rfl, ?_⟩
  exact cohortWindows_length_of_weeks model_instances start_date N

/-- C2 witness: a three-week range yields exactly three cohorts. -/
theorem get_cohorts_from_model_week_count_witness :
    (1 : Nat) ≤ 3 ∧
    ∃ cohorts,
      get_cohorts_from_model (some ([] : List Record)) 0
        (0 + timedeltaWeeks ((3 : Nat) : Int)) = .ok cohorts ∧
      cohorts.length = 3 :=
  ⟨by decide, get_cohorts_from_model_week_count [] 0 3 (by decide)⟩

/-- C2 counterexample: a rounded three-week range (Monday day 0 to Monday
day 21) yields three cohorts, not the two the claim asserts. -/
theorem get_cohorts_from_model_three_weeks_not_two :
    ¬ ∃ cohorts,
        get_cohorts_from_model (some ([] : List Record)) 0
          (0 + timedeltaWeeks ((3 : Nat) : Int)) = .ok cohorts ∧
        cohorts.length = 2 := by
  rintro ⟨cohorts, hok, hlen⟩
  have h3 : (cohortWindows ([] : List Record) 0 (0 + timedeltaDays 6)
      (0 + timedeltaWeeks ((3 : Nat) : Int))).length = 3 :=
    cohortWindows_length_of_weeks [] 0 3
  have hc : cohortWindows ([] : List Record) 0 (0 + timedeltaDays 6)
      (0 + timedeltaWeeks ((3 : Nat) : Int)) = cohorts := by
    simpa [get_cohorts_from_model, get_time_window_from_date] using hok
  rw [hc, hlen] at h3
  exact absurd h3 (by decide)

/-- Concrete evaluation of `get_cohorts_from_model` on a one-week range with
a single record created exactly at the window's end. -/
theorem get_cohorts_single_window_eval :
    get_cohorts_from_model (some [Record.mk (timedeltaDays 6)]) 0
      (timedeltaDays 7) =
      .ok [Cohort.mk [Record.mk (timedeltaDays 6)] 0 (timedeltaDays 6)] := by
  show Except.ok (cohortWindows [Record.mk (timedeltaDays 6)] 0
    (0 + timedeltaDays 6) (timedeltaDays 7)) = _
  rw [cohortWindows_of_lt _ _ _ _ (by decide),
    cohortWindows_of_not_lt _ _ _ _ (by decide)]
  rfl

/-- C4 (amended): the records of every produced cohort are exactly those of
the record source whose creation timestamp lies in the CLOSED interval
`[window_start, window_end]`: Django's `__range` filter is inclusive at both
endpoints, so a record created exactly at `window_end` is included, not
excluded. -/
theorem get_cohorts_from_model_queryset_closed_range
    (model_instances : List Record) (start_date end_date : Int)
    (cohorts : List Cohort)
    (h : get_cohorts_from_model (some model_instances) start_date end_date =
      .ok cohorts) :
    ∀ c ∈ cohorts, ∀ r : Record,
      r ∈ c.queryset ↔
        r ∈ model_instances ∧ c.start_date ≤ r.date_created ∧
          r.date_created ≤ c.end_date := by
  intro c hc r
  have hcw : cohortWindows model_instances start_date
      (start_date + timedeltaDays 6) end_date = cohorts := by
    simpa [get_cohorts_from_model, get_time_window_from_date] using h
  rw [← hcw] at hc
  rw [cohortWindows_queryset model_instances start_date
    (start_date + timedeltaDays 6) end_date c hc,
    extract_instances_in_date_range]
  simp [List.mem_filter, and_assoc]

/-- C4 witness: in the one-week range of `get_cohorts_single_window_eval`,
the record created exactly at the window end belongs to the cohort's
queryset, as characterized by the closed-interval membership. -/
theorem get_cohorts_from_model_queryset_witness :
    Record.mk (timedeltaDays 6) ∈
        (Cohort.mk [Record.mk (timedeltaDays 6)] 0
          (timedeltaDays 6)).queryset ↔
      Record.mk (timedeltaDays 6) ∈ [Record.mk (timedeltaDays 6)] ∧
        (Cohort.mk [Record.mk (timedeltaDays 6)] 0
          (timedeltaDays 6)).start_date ≤ timedeltaDays 6 ∧
        timedeltaDays 6 ≤ (Cohort.mk [Record.mk (timedeltaDays 6)] 0
          (timedeltaDays 6)).end_date :=
  get_cohorts_from_model_queryset_closed_range [Record.mk (timedeltaDays 6)]
    0 (timedeltaDays 7) [Cohort.mk [Record.mk (timedeltaDays 6)] 0
      (timedeltaDays 6)] get_cohorts_single_window_eval
    (Cohort.mk [Record.mk (timedeltaDays 6)] 0 (timedeltaDays 6))
    (List.mem_singleton.mpr rfl) (Record.mk (timedeltaDays 6))

/-- C4 counterexample: the single window produced for the range
`[0, 7 days)` is `[0, 6 days]`, and the record created exactly at the
window end (`6 days`) IS placed in the cohort's queryset — the claim's
half-open interval `[window_start, window_end)` would exclude it. -/
theorem record_at_window_end_included :
    get_cohorts_from_model (some [Record.mk (timedeltaDays 6)]) 0
        (timedeltaDays 7) =
      .ok [Cohort.mk [Record.mk (timedeltaDays 6)] 0 (timedeltaDays 6)] ∧
    Record.mk (timedeltaDays 6) ∈
      (Cohort.mk [Record.mk (timedeltaDays 6)] 0
        (timedeltaDays 6)).queryset :=
  ⟨get_cohorts_single_window_eval, List.mem_singleton.mpr rfl⟩

/-- C5: `get_metrics_from_file` raises `NoMetricFileFound` iff the metric
source does not resolve to a namespace, raises `NoMetricFunctionsFound` iff
it resolves to a namespace with zero function members, and otherwise returns
the metrics normally. -/
theorem get_metrics_from_file_error_conditions {α : Type} (env : ImportEnv α)
    (metric_file : String) :
    (get_metrics_from_file env metric_file = .error .noMetricFileFound ↔
      env metric_file = none) ∧
    (get_metrics_from_file env metric_file = .error .noMetricFunctionsFound ↔
      ∃ m, env metric_file = some m ∧ functionMembers m = []) ∧
    (∀ m, env metric_file = some m → functionMembers m ≠ [] →
      ∃ metrics, get_metrics_from_file env metric_file = .ok metrics) := by
  cases henv : env metric_file with
  | none =>
      refine ⟨by simp [get_metrics_from_file, henv], ?_, ?_⟩
      · simp [get_metrics_from_file, henv]
      · intro m hm hne
        exact absurd hm (by simp)
  | some m =>
      have hif : get_metrics_from_file env metric_file =
          (if (get_sorted_metric_function_tuples m).isEmpty then
            Except.error PyError.noMetricFunctionsFound
          else Except.ok (get_sorted_metric_function_tuples m)) := by
        simp [get_metrics_from_file, henv]
      by_cases he : (get_sorted_metric_function_tuples m).isEmpty
      · rw [if_pos he] at hif
        have hfm : functionMembers m = [] :=
          (get_sorted_metric_function_tuples_eq_nil_iff m).mp
            (List.isEmpty_iff.mp he)
        refine ⟨by simp [hif, henv], by simp [hif, henv, hfm], ?_⟩
        intro m' hm' hne
        obtain rfl := Option.some.inj hm'
        exact absurd hfm hne
      · rw [if_neg he] at hif
        have hfm : functionMembers m ≠ [] := fun hnil =>
          he (List.isEmpty_iff.mpr
            ((get_sorted_metric_function_tuples_eq_nil_iff m).mpr hnil))
        refine ⟨by simp [hif, henv], ?_, fun m' hm' hne => ⟨_, hif⟩⟩
        constructor
        · intro hcontr
          rw [hif] at hcontr
          exact absurd hcontr (by simp)
        · rintro ⟨m', hm', hnil⟩
          obtain rfl := Option.some.inj hm'
          exact absurd hnil hfm

/-- C7: for every resolvable metric source with at least one function member,
`get_metrics_from_file` returns the (name, function) pairs sorted
lexicographically by name, and calling it twice gives the same list (it is a
pure function of its arguments). -/
theorem get_metrics_from_file_sorted_deterministic {α : Type}
    (env : ImportEnv α) (metric_file : String)
    (m : List (String × Member α)) (h1 : env metric_file = some m)
    (h2 : functionMembers m ≠ []) :
    ∃ metrics,
      get_metrics_from_file env metric_file = .ok metrics ∧
      metrics.Pairwise (fun a b => a.1 ≤ b.1) ∧
      get_metrics_from_file env metric_file =
        get_metrics_from_file env metric_file := by
  have he : ¬ (get_sorted_metric_function_tuples m).isEmpty := fun he =>
    h2 ((get_sorted_metric_function_tuples_eq_nil_iff m).mp
      (List.isEmpty_iff.mp he))
  refine ⟨get_sorted_metric_function_tuples m, ?_,
    get_sorted_metric_function_tuples_sorted m, rfl⟩
  simp [get_metrics_from_file, h1, he]

/-- C7 witness: the sample import environment resolves its module to a
namespace with one function member, and the loader returns a sorted list. -/
theorem get_metrics_from_file_sorted_witness :
    ∃ metrics,
      get_metrics_from_file sampleImportEnv "sample.metrics" = .ok metrics ∧
      metrics.Pairwise (fun a b => a.1 ≤ b.1) ∧
      get_metrics_from_file sampleImportEnv "sample.metrics" =
        get_metrics_from_file sampleImportEnv "sample.metrics" :=
  get_metrics_from_file_sorted_deterministic sampleImportEnv "sample.metrics"
    sampleMetricModule rfl (by simp [sampleMetricModule, functionMembers])

/-- Evaluation of the metric loader on the sample environment. -/
theorem sample_metrics_eval :
    get_metrics_from_file sampleImportEnv "sample.metrics" =
      .ok [("example_metric", cMetric)] := by
  have h1 : sampleImportEnv "sample.metrics" = some sampleMetricModule := rfl
  have h2 : get_sorted_metric_function_tuples sampleMetricModule =
      [("example_metric", cMetric)] := by
    rw [get_sorted_metric_function_tuples,
      show functionMembers sampleMetricModule =
        [("example_metric", cMetric)] from rfl]
    exact List.mergeSort_singleton _
  simp [get_metrics_from_file, h1, h2]

/-- C3: `analyze_cohorts` returns one report per cohort in input order; each
report's `born_week` is the ISO week number of the cohort's start date; each
report's `analysis` has one entry per metric, following the loader's sorted
order; each entry's `function_name` is the metric's name with underscores
replaced by spaces and each word capitalized (`example_metric` becomes
`Example Metric`); each entry's `analysis_result` is the metric function
applied to `(cohort, cohort.start_date, overall_end_date)`. -/
theorem analyze_cohorts_reports {α : Type} (env : ImportEnv α)
    (cohorts : List Cohort) (metric_file : String)
    (start_date end_date : Int) (metrics : List (String × MetricFn α))
    (hm : get_metrics_from_file env metric_file = .ok metrics)
    (hne : cohorts ≠ []) :
    analyze_cohorts env cohorts metric_file start_date end_date =
      .ok (cohorts.map fun c =>
        CohortReport.mk (get_isoweek_from_date c.start_date)
          (metrics.map fun metric =>
            AnalysisEntry.mk (snake_case_to_title metric.1)
              (metric.2 c c.start_date end_date))) ∧
    metrics.Pairwise (fun a b => a.1 ≤ b.1) ∧
    snake_case_to_title "example_metric" = "Example Metric" := by
  refine ⟨?_, get_metrics_from_file_ok_sorted env metric_file metrics hm,
    by decide⟩
  simp only [analyze_cohorts, hm, create_default_dict_for_cohort,
    map_metric_to_cohort, foldl_append_singleton, List.nil_append]

/-- C3 witness: the report shape at a concrete cohort list, metric set and
date range. -/
theorem analyze_cohorts_reports_witness :
    analyze_cohorts sampleImportEnv [Cohort.mk [] 0 0] "sample.metrics" 0 0 =
      .ok (([Cohort.mk [] 0 0]).map fun c =>
        CohortReport.mk (get_isoweek_from_date c.start_date)
          (([("example_metric", cMetric)]).map fun metric =>
            AnalysisEntry.mk (snake_case_to_title metric.1)
              (metric.2 c c.start_date 0))) ∧
    ([("example_metric", cMetric)]).Pairwise (fun a b => a.1 ≤ b.1) ∧
    snake_case_to_title "example_metric" = "Example Metric" :=
  analyze_cohorts_reports sampleImportEnv [Cohort.mk [] 0 0] "sample.metrics"
    0 0 [("example_metric", cMetric)] sample_metrics_eval (by simp)

/-- C9 (code_bug evaluation): `get_file_or_default` defaults the metric
source to the module name `cohorts.metrics`, but the repository packages the
example metric set (the module containing `example_metric`) as
`django_cohort_analysis.metrics`; no module `cohorts.metrics` exists, so
running the top-level orchestration with no identifier raises
`NoMetricFileFound` instead of using the built-in example metric set. -/
theorem default_metric_file_unresolvable :
    get_file_or_default none = "cohorts.metrics" ∧
    repoImportEnv "cohorts.metrics" = none ∧
    (repoImportEnv "django_cohort_analysis.metrics").isSome = true ∧
    analyze_cohorts_for_model repoImportEnv (some []) 0 (timedeltaWeeks 3)
      none = .error .noMetricFileFound :=
  ⟨rfl, rfl, rfl, rfl⟩

end DjangoCohortAnalysis
